import Mathlib

/-!
Shallow embedding of `src/src/drizzle_dome_main.ino.ino` (Drizzle-Dome:
automated clothesline retraction controller).

Modelling conventions:
* All mutable globals of the sketch, together with the externally visible
  outputs (motor direction pins, PWM enable duty values, status LED, serial
  log), form one record `Ctl`.
* One iteration of `loop()` is `tick rainDetected now`: `millis()` is sampled
  once per cycle (the calls inside one iteration are microseconds apart and
  the sketch itself treats them as one instant).
* `unsigned long` is 32 bits on the target (Arduino Uno); the wrapping
  subtraction `a - b` on it is `usub` below, reduction mod `UL = 2^32`.
* `Serial.println` appends the printed line to `serialLog`.
* `HIGH`/`LOW` on a digital pin are `true`/`false`; `digitalWrite(pin, x)`
  for numeric `x` drives `HIGH` exactly when `x = 1`.
-/

/-- The `SystemState` enumeration of the sketch. -/
inductive SystemState where
  | EXTENDED
  | RETRACTING
  | RETRACTED
  | EXTENDING
  deriving Repr, DecidableEq

/-- 2^32: the modulus of `unsigned long` arithmetic on the Arduino Uno. -/
def UL : Nat := 4294967296

/-- Wrapping subtraction of `unsigned long` values: `(a - b) mod 2^32`. -/
def usub (a b : Nat) : Nat := (a % UL + (UL - b % UL)) % UL

/-- The full controller state: the sketch's mutable globals plus the
hardware-visible outputs (direction pins, PWM duty, status LED, serial log),
in source declaration order. -/
structure Ctl where
  retractionDelay : Nat
  motorRunTime : Nat
  lastRainTime : Nat
  motorStartTime : Nat
  isRetracted : Bool
  motorsRunning : Bool
  currentState : SystemState
  motor1A : Bool
  motor1B : Bool
  motor1Enable : Nat
  motor2A : Bool
  motor2B : Bool
  motor2Enable : Nat
  statusLED : Bool
  serialLog : List String
  deriving Repr, DecidableEq

/-- `Serial.println(msg)`: append one line to the serial log. -/
def println (msg : String) (s : Ctl) : Ctl :=
  { s with serialLog := s.serialLog ++ [msg] }

/-- `startRetractionMotors()`: both motors driven in the retract direction. -/
def startRetractionMotors (s : Ctl) : Ctl :=
  let s := { s with motor1A := true, motor1B := false,
                    motor2A := true, motor2B := false,
                    motorsRunning := true }
  println "Motors: RETRACTING clothesline..." s

/-- `startExtensionMotors()`: both motors driven in the extend direction. -/
def startExtensionMotors (s : Ctl) : Ctl :=
  let s := { s with motor1A := false, motor1B := true,
                    motor2A := false, motor2B := true,
                    motorsRunning := true }
  println "Motors: EXTENDING clothesline..." s

/-- `stopMotors()`: all four direction pins LOW. -/
def stopMotors (s : Ctl) : Ctl :=
  let s := { s with motor1A := false, motor1B := false,
                    motor2A := false, motor2B := false,
                    motorsRunning := false }
  println "Motors: STOPPED" s

/-- `handleExtendedState(rainDetected)` with `millis() = now`. -/
def handleExtendedState (rainDetected : Bool) (now : Nat) (s : Ctl) : Ctl :=
  if rainDetected then
    let s := println "Rain detected! Starting retraction..." s
    let s := startRetractionMotors s
    { s with currentState := .RETRACTING, motorStartTime := now,
             isRetracted := false }
  else s

/-- `handleRetractingState(rainDetected)` with `millis() = now`. -/
def handleRetractingState (rainDetected : Bool) (now : Nat) (s : Ctl) : Ctl :=
  if s.motorRunTime ≤ usub now s.motorStartTime then
    let s := stopMotors s
    let s := { s with currentState := .RETRACTED, isRetracted := true }
    println "Clothesline fully retracted and safe!" s
  else s

/-- `handleRetractedState(rainDetected)` with `millis() = now`. -/
def handleRetractedState (rainDetected : Bool) (now : Nat) (s : Ctl) : Ctl :=
  if !rainDetected && decide (s.retractionDelay ≤ usub now s.lastRainTime) then
    let s := println "No rain detected for safe period. Starting extension..." s
    let s := startExtensionMotors s
    { s with currentState := .EXTENDING, motorStartTime := now }
  else s

/-- `handleExtendingState(rainDetected)` with `millis() = now`. -/
def handleExtendingState (rainDetected : Bool) (now : Nat) (s : Ctl) : Ctl :=
  if rainDetected then
    let s := println "EMERGENCY: Rain detected during extension! Retracting immediately!" s
    let s := startRetractionMotors s
    { s with currentState := .RETRACTING, motorStartTime := now }
  else if s.motorRunTime ≤ usub now s.motorStartTime then
    let s := stopMotors s
    let s := { s with currentState := .EXTENDED, isRetracted := false }
    println "Clothesline fully extended and ready for use!" s
  else s

/-- `updateStatusLED()` with `millis() = now`. -/
def updateStatusLED (now : Nat) (s : Ctl) : Ctl :=
  match s.currentState with
  | .EXTENDED => { s with statusLED := true }
  | .RETRACTED => { s with statusLED := false }
  | .RETRACTING => { s with statusLED := (now / 200) % 2 == 1 }
  | .EXTENDING => { s with statusLED := (now / 200) % 2 == 1 }

/-- One iteration of `loop()`: sample the rain sensor (`rainDetected`), update
`lastRainTime`, dispatch on the current state, refresh the status LED. -/
def tick (rainDetected : Bool) (now : Nat) (s : Ctl) : Ctl :=
  let s1 := if rainDetected then { s with lastRainTime := now } else s
  let s2 :=
    match s1.currentState with
    | .EXTENDED => handleExtendedState rainDetected now s1
    | .RETRACTING => handleRetractingState rainDetected now s1
    | .RETRACTED => handleRetractedState rainDetected now s1
    | .EXTENDING => handleExtendingState rainDetected now s1
  updateStatusLED now s2

/-- `setup()`: PWM duty 150 on both enables, `stopMotors()`, the two banner
prints, status LED HIGH.  (`pinMode` configures directions only and has no
counterpart in the state.) -/
def setup (s : Ctl) : Ctl :=
  let s := { s with motor1Enable := 150, motor2Enable := 150 }
  let s := stopMotors s
  let s := println "Drizzle-Dome System Initialized " s
  let s := println "Clothesline in EXTENDED position" s
  { s with statusLED := true }

/-- Power-on: C++ static initialisation of the globals (the electrical levels
of the output pins before `setup()` writes them are hardware-dependent, hence
parameters), followed by `setup()`. -/
def boot (m1A m1B m2A m2B : Bool) (e1 e2 : Nat) (led : Bool) : Ctl :=
  setup { retractionDelay := 10000, motorRunTime := 5000,
          lastRainTime := 0, motorStartTime := 0,
          isRetracted := false, motorsRunning := false,
          currentState := .EXTENDED,
          motor1A := m1A, motor1B := m1B, motor1Enable := e1,
          motor2A := m2A, motor2B := m2B, motor2Enable := e2,
          statusLED := led, serialLog := [] }

/-- Run a list of loop iterations; each element is `(rainDetected, now)`. -/
def run (s : Ctl) (L : List (Bool × Nat)) : Ctl :=
  L.foldl (fun t p => tick p.1 p.2 t) s

/-- A controller state reachable from power-on by some sequence of loop
iterations (arbitrary sensor readings and clock samples). -/
inductive Reachable : Ctl → Prop where
  | boot : ∀ m1A m1B m2A m2B e1 e2 led, Reachable (boot m1A m1B m2A m2B e1 e2 led)
  | step : ∀ s r now, Reachable s → Reachable (tick r now s)

/-- A fixed concrete power-on state, used to instantiate theorems. -/
def B0 : Ctl := boot false false false false 0 0 false

theorem usub_eq_sub (a b : Nat) (hb : b ≤ a) (ha : a < UL) : usub a b = a - b := by
  have hbU : b < UL := lt_of_le_of_lt hb ha
  unfold usub
  rw [Nat.mod_eq_of_lt ha, Nat.mod_eq_of_lt hbU]
  have h1 : a + (UL - b) = UL + (a - b) := by omega
  rw [h1, Nat.add_mod_left, Nat.mod_eq_of_lt (by omega)]

theorem run_nil (s : Ctl) : run s [] = s := rfl

theorem run_cons (s : Ctl) (p : Bool × Nat) (L : List (Bool × Nat)) :
    run s (p :: L) = run (tick p.1 p.2 s) L := rfl


/-- Shorthand for the blink value `(millis() / 200) % 2` written to the LED
while a motor is running. -/
def blink (now : Nat) : Bool := (now / 200) % 2 == 1

theorem tick_EXTENDED_rain (now : Nat) (s : Ctl) (hs : s.currentState = .EXTENDED) :
    tick true now s =
      { s with lastRainTime := now, motorStartTime := now, isRetracted := false,
               motorsRunning := true, currentState := .RETRACTING,
               motor1A := true, motor1B := false, motor2A := true, motor2B := false,
               statusLED := blink now,
               serialLog := (s.serialLog ++ ["Rain detected! Starting retraction..."]) ++
                 ["Motors: RETRACTING clothesline..."] } := by
  simp [tick, handleExtendedState, startRetractionMotors, println, updateStatusLED, blink, hs]

theorem tick_EXTENDED_dry (now : Nat) (s : Ctl) (hs : s.currentState = .EXTENDED) :
    tick false now s = { s with statusLED := true } := by
  simp [tick, handleExtendedState, updateStatusLED, hs]

theorem tick_RETRACTING_done (r : Bool) (now : Nat) (s : Ctl)
    (hs : s.currentState = .RETRACTING)
    (hg : s.motorRunTime ≤ usub now s.motorStartTime) :
    tick r now s =
      { s with lastRainTime := if r then now else s.lastRainTime,
               isRetracted := true, motorsRunning := false, currentState := .RETRACTED,
               motor1A := false, motor1B := false, motor2A := false, motor2B := false,
               statusLED := false,
               serialLog := (s.serialLog ++ ["Motors: STOPPED"]) ++
                 ["Clothesline fully retracted and safe!"] } := by
  cases r <;>
    simp [tick, handleRetractingState, stopMotors, println, updateStatusLED, hs, hg]

theorem tick_RETRACTING_wait (r : Bool) (now : Nat) (s : Ctl)
    (hs : s.currentState = .RETRACTING)
    (hg : ¬ s.motorRunTime ≤ usub now s.motorStartTime) :
    tick r now s =
      { s with lastRainTime := if r then now else s.lastRainTime,
               statusLED := blink now } := by
  cases r <;>
    simp [tick, handleRetractingState, updateStatusLED, blink, hs, hg]

theorem tick_RETRACTED_rain (now : Nat) (s : Ctl) (hs : s.currentState = .RETRACTED) :
    tick true now s = { s with lastRainTime := now, statusLED := false } := by
  simp [tick, handleRetractedState, updateStatusLED, hs]

theorem tick_RETRACTED_go (now : Nat) (s : Ctl) (hs : s.currentState = .RETRACTED)
    (hg : s.retractionDelay ≤ usub now s.lastRainTime) :
    tick false now s =
      { s with motorStartTime := now, motorsRunning := true, currentState := .EXTENDING,
               motor1A := false, motor1B := true, motor2A := false, motor2B := true,
               statusLED := blink now,
               serialLog := (s.serialLog ++ ["No rain detected for safe period. Starting extension..."]) ++
                 ["Motors: EXTENDING clothesline..."] } := by
  simp [tick, handleRetractedState, startExtensionMotors, println, updateStatusLED, blink, hs, hg]

theorem tick_RETRACTED_wait (now : Nat) (s : Ctl) (hs : s.currentState = .RETRACTED)
    (hg : ¬ s.retractionDelay ≤ usub now s.lastRainTime) :
    tick false now s = { s with statusLED := false } := by
  simp [tick, handleRetractedState, updateStatusLED, hs, hg]

theorem tick_EXTENDING_rain (now : Nat) (s : Ctl) (hs : s.currentState = .EXTENDING) :
    tick true now s =
      { s with lastRainTime := now, motorStartTime := now,
               motorsRunning := true, currentState := .RETRACTING,
               motor1A := true, motor1B := false, motor2A := true, motor2B := false,
               statusLED := blink now,
               serialLog := (s.serialLog ++
                 ["EMERGENCY: Rain detected during extension! Retracting immediately!"]) ++
                 ["Motors: RETRACTING clothesline..."] } := by
  simp [tick, handleExtendingState, startRetractionMotors, println, updateStatusLED, blink, hs]

theorem tick_EXTENDING_done (now : Nat) (s : Ctl) (hs : s.currentState = .EXTENDING)
    (hg : s.motorRunTime ≤ usub now s.motorStartTime) :
    tick false now s =
      { s with isRetracted := false, motorsRunning := false, currentState := .EXTENDED,
               motor1A := false, motor1B := false, motor2A := false, motor2B := false,
               statusLED := true,
               serialLog := (s.serialLog ++ ["Motors: STOPPED"]) ++
                 ["Clothesline fully extended and ready for use!"] } := by
  simp [tick, handleExtendingState, stopMotors, println, updateStatusLED, hs, hg]

theorem tick_EXTENDING_wait (now : Nat) (s : Ctl) (hs : s.currentState = .EXTENDING)
    (hg : ¬ s.motorRunTime ≤ usub now s.motorStartTime) :
    tick false now s = { s with statusLED := blink now } := by
  simp [tick, handleExtendingState, updateStatusLED, blink, hs, hg]

/-- The states in which the sketch keeps the motors running. -/
def movingB : SystemState → Bool
  | .RETRACTING => true
  | .EXTENDING => true
  | .EXTENDED => false
  | .RETRACTED => false

/-- Direction pins in the retract configuration (A HIGH, B LOW on both motors). -/
def pinsRetract (s : Ctl) : Bool := s.motor1A && !s.motor1B && s.motor2A && !s.motor2B

/-- Direction pins in the extend configuration (A LOW, B HIGH on both motors). -/
def pinsExtend (s : Ctl) : Bool := !s.motor1A && s.motor1B && !s.motor2A && s.motor2B

/-- Direction pins all LOW (motors stopped). -/
def pinsStopped (s : Ctl) : Bool := !s.motor1A && !s.motor1B && !s.motor2A && !s.motor2B

/-- Invariant maintained by every loop iteration: `motorsRunning` tracks the
moving states, the direction pins match (retract or extend while moving, all
LOW otherwise), `isRetracted` is set in RETRACTED and EXTENDING, and both PWM
enables hold the duty 150 written in `setup()`. -/
def fullInv (s : Ctl) : Bool :=
  (s.motorsRunning == movingB s.currentState) &&
  (if movingB s.currentState then pinsRetract s || pinsExtend s else pinsStopped s) &&
  (!(decide (s.currentState = .RETRACTED) || decide (s.currentState = .EXTENDING)) || s.isRetracted) &&
  (s.motor1Enable == 150) && (s.motor2Enable == 150)

theorem fullInv_boot (m1A m1B m2A m2B : Bool) (e1 e2 : Nat) (led : Bool) :
    fullInv (boot m1A m1B m2A m2B e1 e2 led) = true := by
  simp [boot, setup, stopMotors, println, fullInv, movingB, pinsStopped]

theorem fullInv_tick (r : Bool) (now : Nat) (s : Ctl) (h : fullInv s = true) :
    fullInv (tick r now s) = true := by
  cases hs : s.currentState
  case EXTENDED =>
    cases r
    · rw [tick_EXTENDED_dry now s hs]
      simp_all [fullInv, movingB, pinsRetract, pinsExtend, pinsStopped, hs]
    · rw [tick_EXTENDED_rain now s hs]
      simp_all [fullInv, movingB, pinsRetract, pinsExtend, pinsStopped, hs]
  case RETRACTING =>
    by_cases hg : s.motorRunTime ≤ usub now s.motorStartTime
    · rw [tick_RETRACTING_done r now s hs hg]
      simp_all [fullInv, movingB, pinsRetract, pinsExtend, pinsStopped, hs]
    · rw [tick_RETRACTING_wait r now s hs hg]
      simp_all [fullInv, movingB, pinsRetract, pinsExtend, pinsStopped, hs]
  case RETRACTED =>
    cases r
    · by_cases hg : s.retractionDelay ≤ usub now s.lastRainTime
      · rw [tick_RETRACTED_go now s hs hg]
        simp_all [fullInv, movingB, pinsRetract, pinsExtend, pinsStopped, hs]
      · rw [tick_RETRACTED_wait now s hs hg]
        simp_all [fullInv, movingB, pinsRetract, pinsExtend, pinsStopped, hs]
    · rw [tick_RETRACTED_rain now s hs]
      simp_all [fullInv, movingB, pinsRetract, pinsExtend, pinsStopped, hs]
  case EXTENDING =>
    cases r
    · by_cases hg : s.motorRunTime ≤ usub now s.motorStartTime
      · rw [tick_EXTENDING_done now s hs hg]
        simp_all [fullInv, movingB, pinsRetract, pinsExtend, pinsStopped, hs]
      · rw [tick_EXTENDING_wait now s hs hg]
        simp_all [fullInv, movingB, pinsRetract, pinsExtend, pinsStopped, hs]
    · rw [tick_EXTENDING_rain now s hs]
      simp_all [fullInv, movingB, pinsRetract, pinsExtend, pinsStopped, hs]

theorem fullInv_reachable (s : Ctl) (h : Reachable s) : fullInv s = true := by
  induction h with
  | boot m1A m1B m2A m2B e1 e2 led => exact fullInv_boot m1A m1B m2A m2B e1 e2 led
  | step s r now _ ih => exact fullInv_tick r now s ih

theorem tick_lastRainTime (r : Bool) (now : Nat) (s : Ctl) :
    (tick r now s).lastRainTime = if r then now else s.lastRainTime := by
  cases hs : s.currentState
  case EXTENDED =>
    cases r
    · rw [tick_EXTENDED_dry now s hs]; simp
    · rw [tick_EXTENDED_rain now s hs]; simp
  case RETRACTING =>
    by_cases hg : s.motorRunTime ≤ usub now s.motorStartTime
    · rw [tick_RETRACTING_done r now s hs hg]
    · rw [tick_RETRACTING_wait r now s hs hg]
  case RETRACTED =>
    cases r
    · by_cases hg : s.retractionDelay ≤ usub now s.lastRainTime
      · rw [tick_RETRACTED_go now s hs hg]; simp
      · rw [tick_RETRACTED_wait now s hs hg]; simp
    · rw [tick_RETRACTED_rain now s hs]; simp
  case EXTENDING =>
    cases r
    · by_cases hg : s.motorRunTime ≤ usub now s.motorStartTime
      · rw [tick_EXTENDING_done now s hs hg]; simp
      · rw [tick_EXTENDING_wait now s hs hg]; simp
    · rw [tick_EXTENDING_rain now s hs]; simp

theorem tick_enables (r : Bool) (now : Nat) (s : Ctl) :
    (tick r now s).motor1Enable = s.motor1Enable ∧
    (tick r now s).motor2Enable = s.motor2Enable := by
  cases hs : s.currentState
  case EXTENDED =>
    cases r
    · rw [tick_EXTENDED_dry now s hs]; exact ⟨rfl, rfl⟩
    · rw [tick_EXTENDED_rain now s hs]; exact ⟨rfl, rfl⟩
  case RETRACTING =>
    by_cases hg : s.motorRunTime ≤ usub now s.motorStartTime
    · rw [tick_RETRACTING_done r now s hs hg]; exact ⟨rfl, rfl⟩
    · rw [tick_RETRACTING_wait r now s hs hg]; exact ⟨rfl, rfl⟩
  case RETRACTED =>
    cases r
    · by_cases hg : s.retractionDelay ≤ usub now s.lastRainTime
      · rw [tick_RETRACTED_go now s hs hg]; exact ⟨rfl, rfl⟩
      · rw [tick_RETRACTED_wait now s hs hg]; exact ⟨rfl, rfl⟩
    · rw [tick_RETRACTED_rain now s hs]; exact ⟨rfl, rfl⟩
  case EXTENDING =>
    cases r
    · by_cases hg : s.motorRunTime ≤ usub now s.motorStartTime
      · rw [tick_EXTENDING_done now s hs hg]; exact ⟨rfl, rfl⟩
      · rw [tick_EXTENDING_wait now s hs hg]; exact ⟨rfl, rfl⟩
    · rw [tick_EXTENDING_rain now s hs]; exact ⟨rfl, rfl⟩

/-- Claim C1: in every reachable state with `currentState = EXTENDING`, a tick
with rain detected moves to RETRACTING regardless of elapsed extension time
(the rain check pre-empts the completion-timer check), and `motorStartTime`
is set to that tick's `now`, not carried over from the interrupted
extension. -/
theorem C1_extending_rain_preempts (s : Ctl) (now : Nat) (hr : Reachable s)
    (h : s.currentState = .EXTENDING) :
    (tick true now s).currentState = .RETRACTING ∧
    (tick true now s).motorStartTime = now := by
  rw [tick_EXTENDING_rain now s h]
  exact ⟨rfl, rfl⟩

/-- Controller state after three loop iterations from power-on: rain at time
0, then dry ticks at 5000 and 15000; the state machine is then EXTENDING. -/
def S3 : Ctl := tick false 15000 (tick false 5000 (tick true 0 B0))

theorem reachable_S3 : Reachable S3 :=
  Reachable.step _ false 15000 (Reachable.step _ false 5000
    (Reachable.step _ true 0 (Reachable.boot false false false false 0 0 false)))

theorem C1_witness :
    (tick true 17000 S3).currentState = .RETRACTING ∧
    (tick true 17000 S3).motorStartTime = 17000 :=
  C1_extending_rain_preempts S3 17000 reachable_S3 (by decide)

/-- Claim C6: `lastRainTime` is initialised to 0, is set to the sampled time
on every tick in which rain is detected (in every state), is modified by no
other operation, and is non-decreasing whenever the clock sample is at or
after its current value (monotone clock). -/
theorem C6_lastRainTime_lifecycle (s : Ctl) (r : Bool) (now : Nat) :
    (∀ m1A m1B m2A m2B e1 e2 led,
      (boot m1A m1B m2A m2B e1 e2 led).lastRainTime = 0) ∧
    ((tick r now s).lastRainTime = if r then now else s.lastRainTime) ∧
    ((startRetractionMotors s).lastRainTime = s.lastRainTime ∧
     (startExtensionMotors s).lastRainTime = s.lastRainTime ∧
     (stopMotors s).lastRainTime = s.lastRainTime ∧
     (updateStatusLED now s).lastRainTime = s.lastRainTime) ∧
    (s.lastRainTime ≤ now → s.lastRainTime ≤ (tick r now s).lastRainTime) := by
  refine ⟨fun _ _ _ _ _ _ _ => rfl, tick_lastRainTime r now s, ⟨rfl, rfl, rfl, ?_⟩, ?_⟩
  · cases hs : s.currentState <;> simp [updateStatusLED, hs]
  · intro hle
    rw [tick_lastRainTime r now s]
    cases r <;> simp [hle]

theorem C6_witness :
    B0.lastRainTime ≤ 7 ∧ B0.lastRainTime ≤ (tick true 7 B0).lastRainTime :=
  ⟨by decide, (C6_lastRainTime_lifecycle B0 true 7).2.2.2 (by decide)⟩

/-- The LED value the spec prescribes as a pure function of state and time:
HIGH in EXTENDED, LOW in RETRACTED, `(now / 200) % 2` while a motor runs. -/
def ledSpec : SystemState → Nat → Bool
  | .EXTENDED, _ => true
  | .RETRACTED, _ => false
  | .RETRACTING, now => (now / 200) % 2 == 1
  | .EXTENDING, now => (now / 200) % 2 == 1

theorem updateStatusLED_spec (now : Nat) (t : Ctl) :
    (updateStatusLED now t).statusLED = ledSpec (updateStatusLED now t).currentState now := by
  cases hs : t.currentState <;> simp [updateStatusLED, ledSpec, hs]

/-- Claim C7: the status indicator is a pure function of current state and
time: `updateStatusLED` writes exactly `ledSpec` of the current state and
`now` to the LED and changes nothing else, and every tick leaves the LED at
`ledSpec` of the post-tick state. -/
theorem C7_statusLED_pure (s : Ctl) (now : Nat) :
    updateStatusLED now s = { s with statusLED := ledSpec s.currentState now } ∧
    (∀ r, (tick r now s).statusLED = ledSpec (tick r now s).currentState now) := by
  constructor
  · cases hs : s.currentState <;> simp [updateStatusLED, ledSpec, hs]
  · intro r
    exact updateStatusLED_spec now _

theorem fullInv_parts (s : Ctl) (hI : fullInv s = true) :
    s.motorsRunning = movingB s.currentState ∧
    (if movingB s.currentState then pinsRetract s || pinsExtend s else pinsStopped s) = true ∧
    ((s.currentState = .RETRACTED ∨ s.currentState = .EXTENDING) → s.isRetracted = true) ∧
    s.motor1Enable = 150 ∧ s.motor2Enable = 150 := by
  simp only [fullInv, Bool.and_eq_true, beq_iff_eq, Bool.or_eq_true, Bool.not_eq_true',
    Bool.or_eq_false_iff, decide_eq_false_iff_not] at hI
  obtain ⟨⟨⟨⟨hmr, hpins⟩, hret⟩, he1⟩, he2⟩ := hI
  refine ⟨hmr, hpins, ?_, he1, he2⟩
  intro hst
  rcases hret with hno | hyes
  · rcases hst with h1 | h1
    · exact absurd h1 hno.1
    · exact absurd h1 hno.2
  · exact hyes

/-- Claim C2: in every reachable state (the power-on state included) the
motors are driving — `motorsRunning` set, equivalently some direction pin
HIGH — if and only if the state is RETRACTING or EXTENDING; consequently
every tick that lands in RETRACTING or EXTENDING has the motors started and
every tick that lands in RETRACTED or EXTENDED has them stopped. -/
theorem C2_motors_iff_moving (s : Ctl) (h : Reachable s) :
    (s.motorsRunning = true ↔ (s.currentState = .RETRACTING ∨ s.currentState = .EXTENDING)) ∧
    ((s.motor1A || s.motor1B || s.motor2A || s.motor2B) = true ↔
      (s.currentState = .RETRACTING ∨ s.currentState = .EXTENDING)) ∧
    (∀ (r : Bool) (now : Nat),
      (((tick r now s).currentState = .RETRACTING ∨ (tick r now s).currentState = .EXTENDING) →
        (tick r now s).motorsRunning = true) ∧
      (((tick r now s).currentState = .RETRACTED ∨ (tick r now s).currentState = .EXTENDED) →
        (tick r now s).motorsRunning = false)) := by
  have main : ∀ t : Ctl, Reachable t →
      (t.motorsRunning = true ↔ (t.currentState = .RETRACTING ∨ t.currentState = .EXTENDING)) ∧
      ((t.motor1A || t.motor1B || t.motor2A || t.motor2B) = true ↔
        (t.currentState = .RETRACTING ∨ t.currentState = .EXTENDING)) := by
    intro t ht
    obtain ⟨hmr, hpins, -, -, -⟩ := fullInv_parts t (fullInv_reachable t ht)
    cases hs : t.currentState <;> rw [hs] at hmr hpins <;>
      cases h1 : t.motor1A <;> cases h2 : t.motor1B <;>
      cases h3 : t.motor2A <;> cases h4 : t.motor2B <;>
      simp_all [movingB, pinsStopped, pinsRetract, pinsExtend]
  refine ⟨(main s h).1, (main s h).2, ?_⟩
  intro r now
  have hnext := main (tick r now s) (Reachable.step s r now h)
  constructor
  · intro hmov; exact hnext.1.mpr hmov
  · intro hstop
    cases hcur : (tick r now s).motorsRunning
    · rfl
    · exfalso
      have := hnext.1.mp hcur
      rcases hstop with h1 | h1 <;> rcases this with h2 | h2 <;> simp [h1] at h2

theorem reachable_B0 : Reachable B0 :=
  Reachable.boot false false false false 0 0 false

theorem C2_witness :
    B0.motorsRunning = true ↔ (B0.currentState = .RETRACTING ∨ B0.currentState = .EXTENDING) :=
  (C2_motors_iff_moving B0 reachable_B0).1

/-- Claim C8: the two PWM speed-duty outputs are written exactly once, at
initialization, to the fixed level 150: no motor-actuator operation and no
tick changes them, and every reachable state still holds 150 on both. -/
theorem C8_pwm_fixed :
    (∀ m1A m1B m2A m2B e1 e2 led,
      (boot m1A m1B m2A m2B e1 e2 led).motor1Enable = 150 ∧
      (boot m1A m1B m2A m2B e1 e2 led).motor2Enable = 150) ∧
    (∀ s : Ctl,
      (startRetractionMotors s).motor1Enable = s.motor1Enable ∧
      (startRetractionMotors s).motor2Enable = s.motor2Enable ∧
      (startExtensionMotors s).motor1Enable = s.motor1Enable ∧
      (startExtensionMotors s).motor2Enable = s.motor2Enable ∧
      (stopMotors s).motor1Enable = s.motor1Enable ∧
      (stopMotors s).motor2Enable = s.motor2Enable) ∧
    (∀ (r : Bool) (now : Nat) (s : Ctl),
      (tick r now s).motor1Enable = s.motor1Enable ∧
      (tick r now s).motor2Enable = s.motor2Enable) ∧
    (∀ s : Ctl, Reachable s → s.motor1Enable = 150 ∧ s.motor2Enable = 150) := by
  refine ⟨fun _ _ _ _ _ _ _ => ⟨rfl, rfl⟩,
    fun s => ⟨rfl, rfl, rfl, rfl, rfl, rfl⟩,
    fun r now s => tick_enables r now s,
    fun s hs => ?_⟩
  obtain ⟨-, -, -, he1, he2⟩ := fullInv_parts s (fullInv_reachable s hs)
  exact ⟨he1, he2⟩

theorem C8_witness : S3.motor1Enable = 150 ∧ S3.motor2Enable = 150 :=
  C8_pwm_fixed.2.2.2 S3 reachable_S3

/-- Claim C9: in every reachable state the four direction pins are in one of
exactly three combinations — retract (A HIGH, B LOW on both motors), extend
(A LOW, B HIGH on both motors), or all LOW; in particular no motor ever has
both of its direction pins HIGH, and the two motors' pin pairs agree. -/
theorem C9_pin_configurations (s : Ctl) (h : Reachable s) :
    ((s.motor1A = true ∧ s.motor1B = false ∧ s.motor2A = true ∧ s.motor2B = false) ∨
     (s.motor1A = false ∧ s.motor1B = true ∧ s.motor2A = false ∧ s.motor2B = true) ∨
     (s.motor1A = false ∧ s.motor1B = false ∧ s.motor2A = false ∧ s.motor2B = false)) ∧
    ¬(s.motor1A = true ∧ s.motor1B = true) ∧
    ¬(s.motor2A = true ∧ s.motor2B = true) ∧
    s.motor1A = s.motor2A ∧ s.motor1B = s.motor2B := by
  obtain ⟨-, hpins, -, -, -⟩ := fullInv_parts s (fullInv_reachable s h)
  cases hs : s.currentState <;> rw [hs] at hpins <;>
    cases h1 : s.motor1A <;> cases h2 : s.motor1B <;>
    cases h3 : s.motor2A <;> cases h4 : s.motor2B <;>
    simp_all [movingB, pinsStopped, pinsRetract, pinsExtend]

theorem C9_witness :
    ((S3.motor1A = true ∧ S3.motor1B = false ∧ S3.motor2A = true ∧ S3.motor2B = false) ∨
     (S3.motor1A = false ∧ S3.motor1B = true ∧ S3.motor2A = false ∧ S3.motor2B = true) ∨
     (S3.motor1A = false ∧ S3.motor1B = false ∧ S3.motor2A = false ∧ S3.motor2B = false)) ∧
    ¬(S3.motor1A = true ∧ S3.motor1B = true) ∧
    ¬(S3.motor2A = true ∧ S3.motor2B = true) ∧
    S3.motor1A = S3.motor2A ∧ S3.motor1B = S3.motor2B :=
  C9_pin_configurations S3 reachable_S3

theorem tick_no_read_isRetracted (r : Bool) (now : Nat) (s t : Ctl)
    (h1 : t.retractionDelay = s.retractionDelay)
    (h2 : t.motorRunTime = s.motorRunTime)
    (h3 : t.lastRainTime = s.lastRainTime)
    (h4 : t.motorStartTime = s.motorStartTime)
    (h5 : t.motorsRunning = s.motorsRunning)
    (h6 : t.currentState = s.currentState)
    (h7 : t.motor1A = s.motor1A) (h8 : t.motor1B = s.motor1B)
    (h9 : t.motor1Enable = s.motor1Enable)
    (h10 : t.motor2A = s.motor2A) (h11 : t.motor2B = s.motor2B)
    (h12 : t.motor2Enable = s.motor2Enable)
    (h13 : t.statusLED = s.statusLED) (h14 : t.serialLog = s.serialLog) :
    (tick r now t).currentState = (tick r now s).currentState ∧
    (tick r now t).lastRainTime = (tick r now s).lastRainTime ∧
    (tick r now t).motorStartTime = (tick r now s).motorStartTime ∧
    (tick r now t).motor1A = (tick r now s).motor1A ∧
    (tick r now t).motor1B = (tick r now s).motor1B ∧
    (tick r now t).motor2A = (tick r now s).motor2A ∧
    (tick r now t).motor2B = (tick r now s).motor2B ∧
    (tick r now t).motorsRunning = (tick r now s).motorsRunning ∧
    (tick r now t).statusLED = (tick r now s).statusLED ∧
    (tick r now t).serialLog = (tick r now s).serialLog := by
  cases hs : s.currentState
  case EXTENDED =>
    have hs' : t.currentState = .EXTENDED := h6.trans hs
    cases r
    · rw [tick_EXTENDED_dry now t hs', tick_EXTENDED_dry now s hs]
      simp [h1, h2, h3, h4, h5, h6, h7, h8, h9, h10, h11, h12, h13, h14, hs, hs']
    · rw [tick_EXTENDED_rain now t hs', tick_EXTENDED_rain now s hs]
      simp [h1, h2, h3, h4, h5, h6, h7, h8, h9, h10, h11, h12, h13, h14, hs, hs']
  case RETRACTING =>
    have hs' : t.currentState = .RETRACTING := h6.trans hs
    by_cases hg : s.motorRunTime ≤ usub now s.motorStartTime
    · have hg' : t.motorRunTime ≤ usub now t.motorStartTime := by rw [h2, h4]; exact hg
      rw [tick_RETRACTING_done r now t hs' hg', tick_RETRACTING_done r now s hs hg]
      simp [h1, h2, h3, h4, h5, h6, h7, h8, h9, h10, h11, h12, h13, h14, hs, hs']
    · have hg' : ¬ t.motorRunTime ≤ usub now t.motorStartTime := by rw [h2, h4]; exact hg
      rw [tick_RETRACTING_wait r now t hs' hg', tick_RETRACTING_wait r now s hs hg]
      simp [h1, h2, h3, h4, h5, h6, h7, h8, h9, h10, h11, h12, h13, h14, hs, hs']
  case RETRACTED =>
    have hs' : t.currentState = .RETRACTED := h6.trans hs
    cases r
    · by_cases hg : s.retractionDelay ≤ usub now s.lastRainTime
      · have hg' : t.retractionDelay ≤ usub now t.lastRainTime := by rw [h1, h3]; exact hg
        rw [tick_RETRACTED_go now t hs' hg', tick_RETRACTED_go now s hs hg]
        simp [h1, h2, h3, h4, h5, h6, h7, h8, h9, h10, h11, h12, h13, h14, hs, hs']
      · have hg' : ¬ t.retractionDelay ≤ usub now t.lastRainTime := by rw [h1, h3]; exact hg
        rw [tick_RETRACTED_wait now t hs' hg', tick_RETRACTED_wait now s hs hg]
        simp [h1, h2, h3, h4, h5, h6, h7, h8, h9, h10, h11, h12, h13, h14, hs, hs']
    · rw [tick_RETRACTED_rain now t hs', tick_RETRACTED_rain now s hs]
      simp [h1, h2, h3, h4, h5, h6, h7, h8, h9, h10, h11, h12, h13, h14, hs, hs']
  case EXTENDING =>
    have hs' : t.currentState = .EXTENDING := h6.trans hs
    cases r
    · by_cases hg : s.motorRunTime ≤ usub now s.motorStartTime
      · have hg' : t.motorRunTime ≤ usub now t.motorStartTime := by rw [h2, h4]; exact hg
        rw [tick_EXTENDING_done now t hs' hg', tick_EXTENDING_done now s hs hg]
        simp [h1, h2, h3, h4, h5, h6, h7, h8, h9, h10, h11, h12, h13, h14, hs, hs']
      · have hg' : ¬ t.motorRunTime ≤ usub now t.motorStartTime := by rw [h2, h4]; exact hg
        rw [tick_EXTENDING_wait now t hs' hg', tick_EXTENDING_wait now s hs hg]
        simp [h1, h2, h3, h4, h5, h6, h7, h8, h9, h10, h11, h12, h13, h14, hs, hs']
    · rw [tick_EXTENDING_rain now t hs', tick_EXTENDING_rain now s hs]
      simp [h1, h2, h3, h4, h5, h6, h7, h8, h9, h10, h11, h12, h13, h14, hs, hs']

/-- Claim C10: `isRetracted` is not equivalent to `currentState = RETRACTED`:
the RETRACTED to EXTENDING transition does not clear it, so every reachable
EXTENDING state still has it set, and it stays set across the emergency
pre-emption into RETRACTING; moreover no transition decision or output of a
tick reads the flag (changing it changes no other field of the result), and
the concrete reachable state `S3` is EXTENDING with the flag still set. -/
theorem C10_isRetracted_flag (s : Ctl) (h : Reachable s) :
    (s.currentState = .EXTENDING → s.isRetracted = true) ∧
    (∀ now, s.currentState = .EXTENDING →
      (tick true now s).currentState = .RETRACTING ∧
      (tick true now s).isRetracted = true) ∧
    (∀ (b r : Bool) (now : Nat),
      (tick r now { s with isRetracted := b }).currentState = (tick r now s).currentState ∧
      (tick r now { s with isRetracted := b }).lastRainTime = (tick r now s).lastRainTime ∧
      (tick r now { s with isRetracted := b }).motorStartTime = (tick r now s).motorStartTime ∧
      (tick r now { s with isRetracted := b }).motor1A = (tick r now s).motor1A ∧
      (tick r now { s with isRetracted := b }).motor1B = (tick r now s).motor1B ∧
      (tick r now { s with isRetracted := b }).motor2A = (tick r now s).motor2A ∧
      (tick r now { s with isRetracted := b }).motor2B = (tick r now s).motor2B ∧
      (tick r now { s with isRetracted := b }).motorsRunning = (tick r now s).motorsRunning ∧
      (tick r now { s with isRetracted := b }).statusLED = (tick r now s).statusLED ∧
      (tick r now { s with isRetracted := b }).serialLog = (tick r now s).serialLog) ∧
    (S3.currentState = .EXTENDING ∧ S3.isRetracted = true ∧ S3.currentState ≠ .RETRACTED) := by
  have hflag : (s.currentState = .RETRACTED ∨ s.currentState = .EXTENDING) →
      s.isRetracted = true :=
    (fullInv_parts s (fullInv_reachable s h)).2.2.1
  refine ⟨fun he => hflag (Or.inr he), fun now he => ?_, fun b r now => ?_, by decide⟩
  · rw [tick_EXTENDING_rain now s he]
    exact ⟨rfl, hflag (Or.inr he)⟩
  · exact tick_no_read_isRetracted r now s { s with isRetracted := b }
      rfl rfl rfl rfl rfl rfl rfl rfl rfl rfl rfl rfl rfl rfl

theorem C10_witness : S3.isRetracted = true :=
  (C10_isRetracted_flag S3 reachable_S3).1 (by decide)

theorem run_retracting_stay (m t0 : Nat) :
    ∀ (L : List (Bool × Nat)) (s : Ctl),
    s.currentState = .RETRACTING → s.motorStartTime = t0 → s.motorRunTime = m →
    (∀ p ∈ L, t0 ≤ p.2 ∧ p.2 < t0 + m ∧ p.2 < UL) →
    (run s L).currentState = .RETRACTING ∧ (run s L).motorStartTime = t0 ∧
    (run s L).motorRunTime = m
  | [], s, hs, hm, hrt, _ => by
    rw [run_nil]
    exact ⟨hs, hm, hrt⟩
  | p :: L', s, hs, hm, hrt, hL => by
    have hp := hL p (List.mem_cons_self p L')
    have hg : ¬ s.motorRunTime ≤ usub p.2 s.motorStartTime := by
      rw [hrt, hm, usub_eq_sub p.2 t0 hp.1 hp.2.2]
      omega
    rw [run_cons, tick_RETRACTING_wait p.1 p.2 s hs hg]
    exact run_retracting_stay m t0 L' _ hs hm hrt
      (fun q hq => hL q (List.mem_cons_of_mem p hq))

/-- Claim C3: from EXTENDED with rain asserted at a tick at time `t0`, that
tick moves to RETRACTING with `motorStartTime = t0`; any further ticks whose
sampled times stay below `t0 + motorRunTime` leave the state RETRACTING (so
the state is RETRACTED at no earlier tick), and the first subsequent tick
whose sampled time `n` satisfies `n - t0 ≥ motorRunTime` makes the state
RETRACTED. -/
theorem C3_retraction_timing (s : Ctl) (t0 : Nat) (hs : s.currentState = .EXTENDED)
    (ht0 : t0 < UL) :
    (tick true t0 s).currentState = .RETRACTING ∧
    (tick true t0 s).motorStartTime = t0 ∧
    (∀ L : List (Bool × Nat),
      (∀ p ∈ L, t0 ≤ p.2 ∧ p.2 < t0 + s.motorRunTime ∧ p.2 < UL) →
      (run (tick true t0 s) L).currentState = .RETRACTING ∧
      (∀ (r : Bool) (n : Nat), t0 ≤ n → n < UL → s.motorRunTime ≤ n - t0 →
        (tick r n (run (tick true t0 s) L)).currentState = .RETRACTED)) := by
  have hstep := tick_EXTENDED_rain t0 s hs
  have h1 : (tick true t0 s).currentState = .RETRACTING := by rw [hstep]
  have h2 : (tick true t0 s).motorStartTime = t0 := by rw [hstep]
  have h3 : (tick true t0 s).motorRunTime = s.motorRunTime := by rw [hstep]
  refine ⟨h1, h2, fun L hL => ?_⟩
  have hrun := run_retracting_stay s.motorRunTime t0 L (tick true t0 s) h1 h2 h3 hL
  refine ⟨hrun.1, fun r n hn hnUL hm => ?_⟩
  have hg : (run (tick true t0 s) L).motorRunTime ≤
      usub n (run (tick true t0 s) L).motorStartTime := by
    rw [hrun.2.2, hrun.2.1, usub_eq_sub n t0 hn hnUL]
    exact hm
  rw [tick_RETRACTING_done r n _ hrun.1 hg]

theorem C3_witness :
    (tick false 5000 (run (tick true 0 B0) [(true, 2000), (false, 3000)])).currentState =
      .RETRACTED :=
  ((C3_retraction_timing B0 0 (by decide) (by decide)).2.2
    [(true, 2000), (false, 3000)] (by decide)).2 false 5000 (by decide) (by decide) (by decide)

theorem run_retracted_stay (d tr : Nat) :
    ∀ (L : List (Bool × Nat)) (s : Ctl),
    s.currentState = .RETRACTED → s.retractionDelay = d → tr ≤ s.lastRainTime →
    (∀ p ∈ L, s.lastRainTime ≤ p.2 ∧ p.2 < tr + d ∧ p.2 < UL) →
    List.Sorted (· ≤ ·) (L.map Prod.snd) →
    (run s L).currentState = .RETRACTED ∧ tr ≤ (run s L).lastRainTime
  | [], s, hs, hd, htr, _, _ => by
    rw [run_nil]
    exact ⟨hs, htr⟩
  | p :: L', s, hs, hd, htr, hL, hsort => by
    have hp := hL p (List.mem_cons_self p L')
    obtain ⟨hhead, htail⟩ := List.sorted_cons.mp hsort
    have hfuture : ∀ q ∈ L', p.2 ≤ q.2 :=
      fun q hq => hhead q.2 (List.mem_map_of_mem Prod.snd hq)
    cases hr : p.1
    · have hg : ¬ s.retractionDelay ≤ usub p.2 s.lastRainTime := by
        rw [hd, usub_eq_sub p.2 s.lastRainTime hp.1 hp.2.2]
        omega
      rw [run_cons, hr, tick_RETRACTED_wait p.2 s hs hg]
      exact run_retracted_stay d tr L' _ hs hd htr
        (fun q hq => ⟨le_trans hp.1 (hfuture q hq), (hL q (List.mem_cons_of_mem p hq)).2⟩)
        htail
    · rw [run_cons, hr, tick_RETRACTED_rain p.2 s hs]
      exact run_retracted_stay d tr L'
        { s with lastRainTime := p.2, statusLED := false }
        hs hd (le_trans htr hp.1)
        (fun q hq => ⟨hfuture q hq, (hL q (List.mem_cons_of_mem p hq)).2⟩)
        htail

/-- Claim C4: while RETRACTED, a tick moves to EXTENDING exactly when rain is
absent at that tick and `now - lastRainTime ≥ retractionDelay` (otherwise the
state stays RETRACTED); and since `lastRainTime` is refreshed on every tick
sampling rain, a positive rain sample at time `tr` delays any extension past
every subsequent tick whose time is below `tr + retractionDelay`. -/
theorem C4_retracted_rearming (s : Ctl) (hs : s.currentState = .RETRACTED) :
    (∀ (r : Bool) (now : Nat), s.lastRainTime ≤ now → now < UL →
      ((tick r now s).currentState = .EXTENDING ↔
        (r = false ∧ s.retractionDelay ≤ now - s.lastRainTime)) ∧
      ((tick r now s).currentState = .RETRACTED ∨
       (tick r now s).currentState = .EXTENDING)) ∧
    (∀ (tr : Nat) (L : List (Bool × Nat)), tr < UL →
      (tick true tr s).currentState = .RETRACTED ∧
      (tick true tr s).lastRainTime = tr ∧
      ((∀ p ∈ L, tr ≤ p.2 ∧ p.2 < tr + s.retractionDelay ∧ p.2 < UL) →
        List.Sorted (· ≤ ·) (L.map Prod.snd) →
        (run (tick true tr s) L).currentState = .RETRACTED)) := by
  constructor
  · intro r now hle hUL
    cases r
    · by_cases hg : s.retractionDelay ≤ usub now s.lastRainTime
      · rw [tick_RETRACTED_go now s hs hg]
        rw [usub_eq_sub now s.lastRainTime hle hUL] at hg
        exact ⟨by simp [hg], Or.inr rfl⟩
      · rw [tick_RETRACTED_wait now s hs hg]
        rw [usub_eq_sub now s.lastRainTime hle hUL] at hg
        exact ⟨by simp [hs, hg], Or.inl hs⟩
    · rw [tick_RETRACTED_rain now s hs]
      exact ⟨by simp [hs], Or.inl hs⟩
  · intro tr L hUL
    have hstep := tick_RETRACTED_rain tr s hs
    have h1 : (tick true tr s).currentState = .RETRACTED := by rw [hstep]; exact hs
    have h2 : (tick true tr s).lastRainTime = tr := by rw [hstep]
    have h3 : (tick true tr s).retractionDelay = s.retractionDelay := by rw [hstep]
    refine ⟨h1, h2, fun hL hsort => ?_⟩
    exact (run_retracted_stay s.retractionDelay tr L (tick true tr s) h1 h3
      (le_of_eq h2.symm)
      (fun q hq => ⟨by rw [h2]; exact (hL q hq).1, (hL q hq).2⟩) hsort).1

theorem C4_witness :
    (run (tick true 3000 (tick false 5000 (tick true 0 B0)))
      [(false, 4000), (false, 12999)]).currentState = .RETRACTED := by
  have hs : (tick false 5000 (tick true 0 B0)).currentState = .RETRACTED := by decide
  exact ((C4_retracted_rearming (tick false 5000 (tick true 0 B0)) hs).2 3000
    [(false, 4000), (false, 12999)] (by decide)).2.2 (by decide)
    (by simp [List.sorted_cons])

/-- The transition guard the sketch evaluates in each state: rain in EXTENDED,
the elapsed-run-time threshold in RETRACTING, dry-spell expiry in RETRACTED,
and rain or the elapsed-run-time threshold in EXTENDING. -/
def guardHolds (r : Bool) (now : Nat) (s : Ctl) : Bool :=
  match s.currentState with
  | .EXTENDED => r
  | .RETRACTING => decide (s.motorRunTime ≤ usub now s.motorStartTime)
  | .RETRACTED => !r && decide (s.retractionDelay ≤ usub now s.lastRainTime)
  | .EXTENDING => r || decide (s.motorRunTime ≤ usub now s.motorStartTime)

theorem tick_noguard_frame (r : Bool) (now : Nat) (s : Ctl)
    (h : guardHolds r now s = false) :
    (tick r now s).currentState = s.currentState ∧
    (tick r now s).motorStartTime = s.motorStartTime ∧
    (tick r now s).motorRunTime = s.motorRunTime ∧
    (tick r now s).retractionDelay = s.retractionDelay ∧
    (tick r now s).motor1A = s.motor1A ∧
    (tick r now s).motor1B = s.motor1B ∧
    (tick r now s).motor2A = s.motor2A ∧
    (tick r now s).motor2B = s.motor2B ∧
    (tick r now s).motorsRunning = s.motorsRunning ∧
    (tick r now s).serialLog = s.serialLog ∧
    (r = false → (tick r now s).lastRainTime = s.lastRainTime) := by
  cases hs : s.currentState
  case EXTENDED =>
    simp only [guardHolds, hs] at h
    rw [h, tick_EXTENDED_dry now s hs]
    simp [hs]
  case RETRACTING =>
    simp only [guardHolds, hs, decide_eq_false_iff_not] at h
    rw [tick_RETRACTING_wait r now s hs h]
    cases r <;> simp [hs]
  case RETRACTED =>
    simp only [guardHolds, hs] at h
    cases r
    · simp only [Bool.not_false, Bool.true_and, decide_eq_false_iff_not] at h
      rw [tick_RETRACTED_wait now s hs h]
      simp [hs]
    · rw [tick_RETRACTED_rain now s hs]
      simp [hs]
  case EXTENDING =>
    simp only [guardHolds, hs, Bool.or_eq_false_iff, decide_eq_false_iff_not] at h
    rw [h.1, tick_EXTENDING_wait now s hs h.2]
    simp [hs]

theorem guardHolds_congr (r : Bool) (n : Nat) (s t : Ctl)
    (hc : t.currentState = s.currentState)
    (hm : t.motorStartTime = s.motorStartTime)
    (hrt : t.motorRunTime = s.motorRunTime)
    (hd : t.retractionDelay = s.retractionDelay)
    (hl : r = false → t.lastRainTime = s.lastRainTime) :
    guardHolds r n t = guardHolds r n s := by
  cases r
  · cases hs : s.currentState <;>
      simp [guardHolds, hc, hm, hrt, hd, hl rfl, hs]
  · cases hs : s.currentState <;>
      simp [guardHolds, hc, hm, hrt, hd, hs]

theorem run_noguard (r : Bool) :
    ∀ (L : List (Bool × Nat)) (s : Ctl),
    (∀ p ∈ L, p.1 = r ∧ guardHolds r p.2 s = false) →
    (run s L).currentState = s.currentState ∧
    (run s L).motorStartTime = s.motorStartTime ∧
    (run s L).motorRunTime = s.motorRunTime ∧
    (run s L).retractionDelay = s.retractionDelay ∧
    (run s L).motor1A = s.motor1A ∧
    (run s L).motor1B = s.motor1B ∧
    (run s L).motor2A = s.motor2A ∧
    (run s L).motor2B = s.motor2B ∧
    (run s L).motorsRunning = s.motorsRunning ∧
    (run s L).serialLog = s.serialLog ∧
    (r = false → (run s L).lastRainTime = s.lastRainTime)
  | [], s, _ => by
    rw [run_nil]
    exact ⟨rfl, rfl, rfl, rfl, rfl, rfl, rfl, rfl, rfl, rfl, fun _ => rfl⟩
  | p :: L', s, hL => by
    have hp := hL p (List.mem_cons_self p L')
    have hfr := tick_noguard_frame r p.2 s hp.2
    obtain ⟨f1, f2, f3, f4, f5, f6, f7, f8, f9, f10, f11⟩ := hfr
    rw [run_cons, hp.1]
    have htail : ∀ q ∈ L', q.1 = r ∧ guardHolds r q.2 (tick r p.2 s) = false := by
      intro q hq
      refine ⟨(hL q (List.mem_cons_of_mem p hq)).1, ?_⟩
      rw [guardHolds_congr r q.2 s (tick r p.2 s) f1 f2 f3 f4 f11]
      exact (hL q (List.mem_cons_of_mem p hq)).2
    obtain ⟨g1, g2, g3, g4, g5, g6, g7, g8, g9, g10, g11⟩ :=
      run_noguard r L' (tick r p.2 s) htail
    exact ⟨g1.trans f1, g2.trans f2, g3.trans f3, g4.trans f4, g5.trans f5,
      g6.trans f6, g7.trans f7, g8.trans f8, g9.trans f9, g10.trans f10,
      fun hrf => (g11 hrf).trans (f11 hrf)⟩

/-- Claim C5: for every state, repeated ticks carrying the same rain reading
whose times never satisfy the state's transition guard leave `currentState`,
`motorStartTime`, the four direction pins and `motorsRunning` unchanged, and
append nothing to the serial log (no motor-start side effect is re-issued). -/
theorem C5_noguard_idempotent (r : Bool) (s : Ctl) (L : List (Bool × Nat))
    (hL : ∀ p ∈ L, p.1 = r ∧ guardHolds r p.2 s = false) :
    (run s L).currentState = s.currentState ∧
    (run s L).motorStartTime = s.motorStartTime ∧
    (run s L).motor1A = s.motor1A ∧
    (run s L).motor1B = s.motor1B ∧
    (run s L).motor2A = s.motor2A ∧
    (run s L).motor2B = s.motor2B ∧
    (run s L).motorsRunning = s.motorsRunning ∧
    (run s L).serialLog = s.serialLog := by
  obtain ⟨g1, g2, -, -, g5, g6, g7, g8, g9, g10, -⟩ := run_noguard r L s hL
  exact ⟨g1, g2, g5, g6, g7, g8, g9, g10⟩

theorem C5_witness :
    (run B0 [(false, 100), (false, 200), (false, 300)]).currentState = B0.currentState ∧
    (run B0 [(false, 100), (false, 200), (false, 300)]).motorStartTime = B0.motorStartTime ∧
    (run B0 [(false, 100), (false, 200), (false, 300)]).motor1A = B0.motor1A ∧
    (run B0 [(false, 100), (false, 200), (false, 300)]).motor1B = B0.motor1B ∧
    (run B0 [(false, 100), (false, 200), (false, 300)]).motor2A = B0.motor2A ∧
    (run B0 [(false, 100), (false, 200), (false, 300)]).motor2B = B0.motor2B ∧
    (run B0 [(false, 100), (false, 200), (false, 300)]).motorsRunning = B0.motorsRunning ∧
    (run B0 [(false, 100), (false, 200), (false, 300)]).serialLog = B0.serialLog :=
  C5_noguard_idempotent false B0 [(false, 100), (false, 200), (false, 300)] (by decide)
